import Mathlib

/-!
# Verification of the iytdl key-resolution, thumbnail and lifecycle core

Shallow embedding of `src/iytdl/main.py` (class `iYTDL`).  Collaborators that
live outside this file's source (the `Extractor` entry points, the aiohttp
session, the `AioSQLiteDB` cache) are modelled as explicit function
parameters or as state fields; exceptions are modelled with `Except`.
-/

namespace IYTDL

/-- Observable effects performed by `extract_info_from_key` besides its
return value: a cache lookup, a delegation to the video-id entry point
(`get_download_button`), or a delegation to the arbitrary-URL entry point
(`generic_extractor`). -/
inductive KeyEffect where
  | cacheLookup (key : String)
  | delegateVideoId (key : String)
  | delegateUrl (key url : String)
  deriving DecidableEq, Repr

/-- Python truthiness of an `Optional[str]` value: `None` and the empty
string are falsy, every other string is truthy.  This is what the walrus
test `if url := await self.cache.get_url(key):` evaluates. -/
def optStrTruthy : Option String → Bool
  | none => false
  | some u => u ≠ ""

/-- `iYTDL.extract_info_from_key` (main.py lines 108-122), with the
collaborators passed explicitly:
`getDownloadButton` is `Extractor.get_download_button` (resolve by video id),
`genericExtractor` is `Extractor.generic_extractor` (resolve by URL),
`cacheGetUrl` is `AioSQLiteDB.get_url` (point lookup, modelled from the
spec since `sql_cache.py` is not in the sources: no side effects, returns
the stored URL or nothing).  The second component records the effects in
the order they happen.  A Python method body that falls off the end
returns `None`. -/
def extract_info_from_key (getDownloadButton : String → Option α)
    (genericExtractor : String → String → Option α)
    (cacheGetUrl : String → Option String) (key : String) :
    Option α × List KeyEffect :=
  if key.length = 11 then
    (getDownloadButton key, [.delegateVideoId key])
  else
    let url := cacheGetUrl key
    if optStrTruthy url then
      (genericExtractor key (url.getD ""), [.cacheLookup key, .delegateUrl key (url.getD "")])
    else
      (none, [.cacheLookup key])

/-- The thumbnail quality chain of `iYTDL.get_ytthumb` (main.py lines
135-141), in the order the `for` loop iterates it. -/
def qualityList : List String :=
  ["maxresdefault", "hqdefault", "sddefault", "mqdefault", "default"]

/-- The candidate thumbnail URL built at main.py line 142:
`f"https://i.ytimg.com/vi/\x7byt_id\x7d/\x7bquality\x7d.jpg"`. -/
def thumbURL (yt_id quality : String) : String :=
  "https://i.ytimg.com/vi/" ++ yt_id ++ "/" ++ quality ++ ".jpg"

/-- The body of the `for quality in (...)` loop of `get_ytthumb`
(main.py lines 135-147).  `fetch` models `self.http.get(link)` and
returns either the HTTP status of the response or a raised transport
exception (`Except.error`); the `async with` block has no handler, so an
exception propagates.  `Except.ok (some link)` models leaving the loop
through `break` with `link` bound; `Except.ok none` models exhausting the
loop (the `for ... else` arm). -/
def get_ytthumb_loop (fetch : String → Except ε Nat) (yt_id : String) :
    List String → Except ε (Option String)
  | [] => .ok none
  | quality :: rest =>
    let link := thumbURL yt_id quality
    match fetch link with
    | .error e => .error e
    | .ok status =>
      if status = 200 then .ok (some link)
      else get_ytthumb_loop fetch yt_id rest

/-- `iYTDL.get_ytthumb` (main.py lines 124-148): probe the qualities in
order; on `break` return the found link, on exhaustion return
`self.default_thumb`; an exception from the fetch propagates. -/
def get_ytthumb (fetch : String → Except ε Nat)
    (default_thumb yt_id : String) : Except ε String :=
  match get_ytthumb_loop fetch yt_id qualityList with
  | .error e => .error e
  | .ok (some link) => .ok link
  | .ok none => .ok default_thumb

/-- The ambient environment the constructor and the toolchain probe
interact with: which paths are existing regular files, which are existing
directories, and the exit status of a shell command run through
`run_command(..., shell=True)`. -/
structure World where
  isFile : String → Bool
  isDir : String → Bool
  runExit : String → Nat

/-- Exceptions raised by `iYTDL.__init__` and `iYTDL._check_ffmpeg`,
as structured values: `fileExists p` is the `FileExistsError` that
`Path.mkdir(exist_ok=True, parents=True)` re-raises when `p` exists as a
non-directory; `typeError p` is the `TypeError` of main.py line 64;
`fileNotFound p` is the `FileNotFoundError` of main.py line 78;
`valueError tool` is the `ValueError` of main.py line 162. -/
inductive PyError where
  | fileExists (p : String)
  | typeError (p : String)
  | fileNotFound (p : String)
  | valueError (tool : String)
  deriving DecidableEq, Repr

/-- `Path(p).mkdir(exist_ok=True, parents=True)`: when `p` exists as a
regular file the underlying `mkdir` fails with `FileExistsError` and
`exist_ok` does not suppress it because `p` is not a directory; otherwise
the call succeeds and `p` is a directory afterwards. -/
def path_mkdir (w : World) (p : String) : Except PyError World :=
  if w.isFile p then .error (.fileExists p)
  else .ok { w with isDir := fun q => if q = p then true else w.isDir q }

/-- The value stored in `self._ffmpeg` at main.py line 79: the plain
string `"ffmpeg"` when the default was kept, or a `Path` when a custom
location was configured.  `_check_ffmpeg` dispatches on this with
`isinstance(self._ffmpeg, Path)`. -/
inductive FfmpegLoc where
  | ambient
  | custom (p : String)
  deriving DecidableEq, Repr

/-- `Path(p).parent` on a POSIX path string: everything before the last
slash, or `"."` when there is no slash. -/
def parentDir (p : String) : String :=
  match p.toList.reverse.dropWhile (fun c => c ≠ '/') with
  | [] => "."
  | _ :: before => String.mk before.reverse

/-- The co-located ffprobe candidate of main.py lines 153-155:
`str(self._ffmpeg.parent.joinpath("ffprobe"))` (POSIX, so no `.exe`
suffix; `Path(".").joinpath("ffprobe")` renders as `"ffprobe"`). -/
def ffprobePath (p : String) : String :=
  let par := parentDir p
  if par = "." then "ffprobe" else par ++ "/ffprobe"

/-- The command name `_check_ffmpeg` probes with `-version`: the custom
path when one was configured, the bare name `"ffmpeg"` otherwise
(main.py lines 151-158). -/
def ffmpegTool : FfmpegLoc → String
  | .ambient => "ffmpeg"
  | .custom p => p

/-- The relevant slice of the state `iYTDL.__init__` builds. -/
structure Inst where
  default_thumb : String
  ffmpeg : FfmpegLoc
  deriving DecidableEq, Repr

/-- `iYTDL.__init__` (main.py lines 27-80), restricted to the effects the
spec talks about and in source order: `self.http = session or
ClientSession()` (no network traffic), the cache-path `mkdir` (line 62),
the `is_file` type check (lines 63-64), the download-path `mkdir`
(line 72), and the custom-ffmpeg file check (lines 75-79). -/
def iYTDL_init (w : World) (default_thumb cache_path download_path ffmpeg_location : String) :
    Except PyError (World × Inst) :=
  match path_mkdir w cache_path with
  | .error e => .error e
  | .ok w1 =>
    if w1.isFile cache_path then .error (.typeError cache_path)
    else
      match path_mkdir w1 download_path with
      | .error e => .error e
      | .ok w2 =>
        if ffmpeg_location ≠ "ffmpeg" then
          if ¬ w2.isFile ffmpeg_location then .error (.fileNotFound ffmpeg_location)
          else .ok (w2, ⟨default_thumb, .custom ffmpeg_location⟩)
        else .ok (w2, ⟨default_thumb, .ambient⟩)

/-- `iYTDL._check_ffmpeg` (main.py lines 150-166).  Returns the value the
probe leaves in the optional `_ffprobe` attribute: `some p` exactly when
`setattr(self, "_ffprobe", ffprobe)` ran, `none` when the attribute was
never set.  Raises `ValueError` when the ffmpeg version query exits
non-zero. -/
def check_ffmpeg (w : World) (loc : FfmpegLoc) : Except PyError (Option String) :=
  let pair : String × Option String :=
    match loc with
    | .custom p =>
      let cand := ffprobePath p
      (p, if w.isFile cand then some cand else none)
    | .ambient => ("ffmpeg", some "ffprobe")
  if w.runExit (pair.1 ++ " -version") ≠ 0 then .error (.valueError pair.1)
  else
    match pair.2 with
    | some fp => if w.runExit (fp ++ " -version") = 0 then .ok (some fp) else .ok none
    | none => .ok none

/-- `iYTDL.start` (main.py lines 174-177): run the toolchain probe, then
`self.cache._init()` (modelled from the spec: initializes the KeyCache
storage, creating the backing store if absent; no failure mode of its own
is specified).  So `start` fails exactly when `_check_ffmpeg` does. -/
def start (w : World) (loc : FfmpegLoc) : Except PyError (Option String) :=
  check_ffmpeg w loc

/-- The lifecycle state `stop` acts on: whether the aiohttp session is
closed, whether it was supplied externally at construction (`session or
ClientSession()` keeps no record of this, so it is a ghost flag), and
whether the cache storage handle is open. -/
structure LifeState where
  httpClosed : Bool
  httpExternal : Bool
  cacheOpen : Bool
  deriving DecidableEq, Repr

/-- The observable close actions `stop` performs. -/
inductive StopAction where
  | closeHttp
  | closeCache
  deriving DecidableEq, Repr

/-- `iYTDL.stop` (main.py lines 168-172): `self.http` is always a session
object (truthy), so the guard is `not self.http.closed`; then
`await self.cache.close()` unconditionally.  `ClientSession.close` marks
the session closed; `AioSQLiteDB.close` is modelled from the spec
(releases the storage handle; idempotent — calling it twice, or when
never opened, must not raise).  Both collaborators are exception-free
here, so `stop` is a total function on states. -/
def stop (s : LifeState) : LifeState × List StopAction :=
  let (s1, acts) :=
    if ¬ s.httpClosed then ({ s with httpClosed := true }, [StopAction.closeHttp])
    else (s, [])
  ({ s1 with cacheOpen := false }, acts ++ [StopAction.closeCache])

/-! ## Theorems -/

/-- C1: for every key of length exactly 11, `extract_info_from_key`
delegates to the resolve-by-video-identifier entry point and returns its
result unmodified (including `None`) with no cache lookup; for every key
of any other length it consults the cache. -/
theorem extract_key_dispatch {α : Type} (gdb : String → Option α)
    (ge : String → String → Option α) (cache : String → Option String) (key : String) :
    (key.length = 11 →
      extract_info_from_key gdb ge cache key = (gdb key, [KeyEffect.delegateVideoId key]) ∧
      ∀ k, KeyEffect.cacheLookup k ∉ (extract_info_from_key gdb ge cache key).2) ∧
    (key.length ≠ 11 →
      KeyEffect.cacheLookup key ∈ (extract_info_from_key gdb ge cache key).2) := by
  constructor
  · intro h
    simp [extract_info_from_key, h]
  · intro h
    simp only [extract_info_from_key, if_neg h]
    split <;> simp

/-- Witness for C1 at the 11-character key `"dQw4w9WgXcQ"` (the
collaborator answer, here `none`, is passed through with no cache
lookup) and at the 2-character key `"ab"` (a cache lookup happens). -/
theorem extract_key_dispatch_witness :
    (extract_info_from_key (fun _ => (none : Option Nat)) (fun _ _ => some 7)
        (fun _ => some "http://x") "dQw4w9WgXcQ"
      = (none, [KeyEffect.delegateVideoId "dQw4w9WgXcQ"]) ∧
      ∀ k, KeyEffect.cacheLookup k ∉
        (extract_info_from_key (fun _ => (none : Option Nat)) (fun _ _ => some 7)
          (fun _ => some "http://x") "dQw4w9WgXcQ").2) ∧
    KeyEffect.cacheLookup "ab" ∈
      (extract_info_from_key (fun _ => (none : Option Nat)) (fun _ _ => some 7)
        (fun _ => some "http://x") "ab").2 :=
  ⟨(extract_key_dispatch _ _ _ _).1 (by decide),
   (extract_key_dispatch (fun _ => (none : Option Nat)) (fun _ _ => some 7)
      (fun _ => some "http://x") "ab").2 (by decide)⟩

/-- C2: for every key of length other than 11 that the cache does not
hold, `extract_info_from_key` returns `none`; the only effect is the
lookup itself (neither extractor entry point is invoked). -/
theorem extract_key_miss {α : Type} (gdb : String → Option α)
    (ge : String → String → Option α) (cache : String → Option String) (key : String)
    (hlen : key.length ≠ 11) (habs : cache key = none) :
    extract_info_from_key gdb ge cache key = (none, [KeyEffect.cacheLookup key]) := by
  simp [extract_info_from_key, hlen, habs, optStrTruthy]

/-- Witness for C2 at key `"ab"` with an empty cache. -/
theorem extract_key_miss_witness :
    extract_info_from_key (fun _ => (none : Option Nat)) (fun _ _ => some 7)
      (fun _ => none) "ab" = (none, [KeyEffect.cacheLookup "ab"]) :=
  extract_key_miss _ _ _ _ (by decide) rfl

/-- C10: for every key of length other than 11 whose cached URL is the
empty string, `extract_info_from_key` behaves exactly as for an absent
key: it returns `none` and never invokes the resolve-by-arbitrary-URL
entry point. -/
theorem extract_key_empty_url {α : Type} (gdb : String → Option α)
    (ge : String → String → Option α) (cache : String → Option String) (key : String)
    (hlen : key.length ≠ 11) (hempty : cache key = some "") :
    extract_info_from_key gdb ge cache key
      = extract_info_from_key gdb ge (fun _ => none) key ∧
    (extract_info_from_key gdb ge cache key).1 = none ∧
    ∀ k u, KeyEffect.delegateUrl k u ∉ (extract_info_from_key gdb ge cache key).2 := by
  refine ⟨?_, ?_, ?_⟩ <;>
    simp [extract_info_from_key, hlen, hempty, optStrTruthy]

/-- Witness for C10 at key `"ab"` with a cache storing the empty string. -/
theorem extract_key_empty_url_witness :
    extract_info_from_key (fun _ => (none : Option Nat)) (fun _ _ => some 7)
      (fun _ => some "") "ab"
      = extract_info_from_key (fun _ => (none : Option Nat)) (fun _ _ => some 7)
        (fun _ => none) "ab" ∧
    (extract_info_from_key (fun _ => (none : Option Nat)) (fun _ _ => some 7)
      (fun _ => some "") "ab").1 = none ∧
    ∀ k u, KeyEffect.delegateUrl k u ∉
      (extract_info_from_key (fun _ => (none : Option Nat)) (fun _ _ => some 7)
        (fun _ => some "") "ab").2 :=
  extract_key_empty_url _ _ _ _ (by decide) rfl

/-- C3 counterexample: a 2xx response that is not exactly 200 is NOT
treated as "found".  With every probe answering HTTP 204 (a 200-class
status), the code falls through the whole chain and returns the default
thumbnail instead of the first quality's URL, refuting the claim that any
2xx response is the "found" signal. -/
theorem get_ytthumb_2xx_not_found :
    get_ytthumb (fun _ => (Except.ok 204 : Except Unit Nat)) "DEFAULT" "vid"
      = Except.ok "DEFAULT" ∧
    200 ≤ 204 ∧ 204 < 300 ∧
    Except.ok "DEFAULT"
      ≠ (Except.ok (thumbURL "vid" "maxresdefault") : Except Unit String) := by
  refine ⟨rfl, by norm_num, by norm_num, ?_⟩
  simp only [ne_eq, Except.ok.injEq, thumbURL]
  decide

/-- C3 amended: when no probe raises, `get_ytthumb` probes the qualities
in the fixed order maxresdefault, hqdefault, sddefault, mqdefault,
default, treats exactly HTTP status 200 (not every 2xx status) as the
sole "found" signal, returns the URL of the first quality found, and when
none is found returns the configured default thumbnail; every returned
string is either a non-empty constructed thumbnail URL or that default. -/
theorem get_ytthumb_chain (fetch : String → Nat) (d y : String) :
    get_ytthumb (fun l => (Except.ok (fetch l) : Except Unit Nat)) d y
      = Except.ok ((((qualityList.map (thumbURL y)).find?
          (fun l => decide (fetch l = 200))).getD d)) ∧
    qualityList = ["maxresdefault", "hqdefault", "sddefault", "mqdefault", "default"] ∧
    ∀ s, get_ytthumb (fun l => (Except.ok (fetch l) : Except Unit Nat)) d y
        = Except.ok s → 0 < s.length ∨ s = d := by
  have hurl : ∀ q, 0 < (thumbURL y q).length := by
    intro q
    have h23 : 0 < ("https://i.ytimg.com/vi/" : String).length := by decide
    simp only [thumbURL, String.length_append]
    omega
  have hmain : get_ytthumb (fun l => (Except.ok (fetch l) : Except Unit Nat)) d y
      = Except.ok ((((qualityList.map (thumbURL y)).find?
          (fun l => decide (fetch l = 200))).getD d)) := by
    simp only [get_ytthumb, get_ytthumb_loop, qualityList, List.map, List.find?]
    by_cases h1 : fetch (thumbURL y "maxresdefault") = 200 <;>
      by_cases h2 : fetch (thumbURL y "hqdefault") = 200 <;>
        by_cases h3 : fetch (thumbURL y "sddefault") = 200 <;>
          by_cases h4 : fetch (thumbURL y "mqdefault") = 200 <;>
            by_cases h5 : fetch (thumbURL y "default") = 200 <;>
              simp [h1, h2, h3, h4, h5]
  refine ⟨hmain, rfl, ?_⟩
  intro s hs
  rw [hmain] at hs
  rcases hfind : (qualityList.map (thumbURL y)).find? (fun l => decide (fetch l = 200))
    with _ | l
  · rw [hfind] at hs
    right
    simpa using hs.symm
  · rw [hfind] at hs
    left
    have hmem := List.mem_of_find?_eq_some hfind
    rcases List.mem_map.mp hmem with ⟨q, _, hq⟩
    have : s = l := by simpa using hs.symm
    rw [this, ← hq]
    exact hurl q

/-- Witness for C3 (amended) with a probe that answers 200 only from
sddefault downward: the sddefault URL, the highest quality found, is
returned. -/
theorem get_ytthumb_chain_witness :
    get_ytthumb
        (fun l => (Except.ok
          (if l = thumbURL "vid" "sddefault" ∨ l = thumbURL "vid" "mqdefault"
              ∨ l = thumbURL "vid" "default" then 200 else 404) : Except Unit Nat))
        "DEFAULT" "vid"
      = Except.ok (((qualityList.map (thumbURL "vid")).find?
          (fun l =>
            decide ((if l = thumbURL "vid" "sddefault" ∨ l = thumbURL "vid" "mqdefault"
                ∨ l = thumbURL "vid" "default" then 200 else 404) = 200))).getD "DEFAULT") ∧
    ∀ s, get_ytthumb
        (fun l => (Except.ok
          (if l = thumbURL "vid" "sddefault" ∨ l = thumbURL "vid" "mqdefault"
              ∨ l = thumbURL "vid" "default" then 200 else 404) : Except Unit Nat))
        "DEFAULT" "vid" = Except.ok s → 0 < s.length ∨ s = "DEFAULT" :=
  ⟨(get_ytthumb_chain
      (fun l => if l = thumbURL "vid" "sddefault" ∨ l = thumbURL "vid" "mqdefault"
          ∨ l = thumbURL "vid" "default" then 200 else 404) "DEFAULT" "vid").1,
   (get_ytthumb_chain
      (fun l => if l = thumbURL "vid" "sddefault" ∨ l = thumbURL "vid" "mqdefault"
          ∨ l = thumbURL "vid" "default" then 200 else 404) "DEFAULT" "vid").2.2⟩

/-- C4 counterexample: the `async with self.http.get(link)` block has no
exception handler, so a transport failure is NOT absorbed.  With the
maxresdefault probe raising and the hqdefault probe answering 200, the
code raises instead of proceeding to the next quality and returning the
hqdefault URL. -/
theorem get_ytthumb_raises :
    get_ytthumb
        (fun l => if l = thumbURL "vid" "maxresdefault"
          then (Except.error "ClientConnectionError" : Except String Nat)
          else Except.ok 200)
        "DEFAULT" "vid"
      = Except.error "ClientConnectionError" := by
  have hne : thumbURL "vid" "maxresdefault" = thumbURL "vid" "maxresdefault" := rfl
  simp [get_ytthumb, get_ytthumb_loop, qualityList, hne]

/-- Helper for the amended C4: if every quality in a prefix of the chain
answers a non-200 status and the next quality's fetch raises `e`, the
loop propagates `e`. -/
theorem get_ytthumb_loop_error (fetch : String → Except String Nat) (y : String)
    (e : String) :
    ∀ (qs₁ : List String) (q : String) (qs₂ : List String),
      (∀ q' ∈ qs₁, ∃ st, fetch (thumbURL y q') = Except.ok st ∧ st ≠ 200) →
      fetch (thumbURL y q) = Except.error e →
      get_ytthumb_loop fetch y (qs₁ ++ q :: qs₂) = Except.error e := by
  intro qs₁
  induction qs₁ with
  | nil =>
    intro q qs₂ _ herr
    simp [get_ytthumb_loop, herr]
  | cons q' rest ih =>
    intro q qs₂ hok herr
    rcases hok q' (by simp) with ⟨st, hst, hne⟩
    simp only [List.cons_append, get_ytthumb_loop, hst, if_neg hne]
    exact ih q qs₂ (fun x hx => hok x (by simp [hx])) herr

/-- C4 amended: a transport failure (an exception raised by the network
fetch) during any per-quality check that the loop reaches is NOT absorbed:
it propagates to the caller unchanged, the loop does not proceed to lower
qualities, and `get_ytthumb` raises. -/
theorem get_ytthumb_error_propagates (fetch : String → Except String Nat)
    (d y e : String) (qs₁ : List String) (q : String) (qs₂ : List String)
    (hchain : qualityList = qs₁ ++ q :: qs₂)
    (hbefore : ∀ q' ∈ qs₁, ∃ st, fetch (thumbURL y q') = Except.ok st ∧ st ≠ 200)
    (herr : fetch (thumbURL y q) = Except.error e) :
    get_ytthumb fetch d y = Except.error e := by
  rw [get_ytthumb, hchain, get_ytthumb_loop_error fetch y e qs₁ q qs₂ hbefore herr]

/-- Witness for C4 (amended): maxresdefault answers 404, the sddefault
fetch raises, and `get_ytthumb` surfaces that exception. -/
theorem get_ytthumb_error_propagates_witness :
    get_ytthumb
        (fun l => if l = thumbURL "vid" "hqdefault"
          then (Except.error "Timeout" : Except String Nat)
          else Except.ok 404)
        "DEFAULT" "vid"
      = Except.error "Timeout" :=
  get_ytthumb_error_propagates
    (fun l => if l = thumbURL "vid" "hqdefault"
      then (Except.error "Timeout" : Except String Nat)
      else Except.ok 404)
    "DEFAULT" "vid" "Timeout" ["maxresdefault"] "hqdefault"
    ["sddefault", "mqdefault", "default"] rfl
    (by
      intro q' hq'
      simp only [List.mem_singleton] at hq'
      subst hq'
      refine ⟨404, ?_, by decide⟩
      show (if thumbURL "vid" "maxresdefault" = thumbURL "vid" "hqdefault"
          then (Except.error "Timeout" : Except String Nat) else Except.ok 404)
        = Except.ok 404
      rw [if_neg (by simp only [thumbURL]; decide)])
    (by
      show (if thumbURL "vid" "hqdefault" = thumbURL "vid" "hqdefault"
          then (Except.error "Timeout" : Except String Nat) else Except.ok 404)
        = Except.error "Timeout"
      rw [if_pos rfl])

/-- C5: the primary-tool probe is fatal in exactly the two claimed ways:
a custom ffmpeg location (anything other than the default `"ffmpeg"`)
that is not an existing file makes construction raise
`FileNotFoundError`, and a non-zero exit of the ffmpeg version query
makes `start` raise `ValueError`. -/
theorem ffmpeg_probe_fatal (w : World) (dt cp dp fl : String)
    (hcp : w.isFile cp = false) (hdp : w.isFile dp = false) :
    (fl ≠ "ffmpeg" → w.isFile fl = false →
      iYTDL_init w dt cp dp fl = Except.error (PyError.fileNotFound fl)) ∧
    (∀ loc : FfmpegLoc, w.runExit (ffmpegTool loc ++ " -version") ≠ 0 →
      start w loc = Except.error (PyError.valueError (ffmpegTool loc))) := by
  constructor
  · intro hfl hfile
    simp [iYTDL_init, path_mkdir, hcp, hdp, hfl, hfile]
  · intro loc hrun
    cases loc <;> simp [start, check_ffmpeg, ffmpegTool] at hrun ⊢ <;> simp [hrun]

/-- Witness for C5: a world with no files where every command exits 1;
the custom location `/opt/ffmpeg` fails construction, and with the
default location the version query failure fails `start`. -/
theorem ffmpeg_probe_fatal_witness :
    iYTDL_init ⟨fun _ => false, fun _ => false, fun _ => 1⟩ "T" "c" "dl" "/opt/ffmpeg"
      = Except.error (PyError.fileNotFound "/opt/ffmpeg") ∧
    start ⟨fun _ => false, fun _ => false, fun _ => 1⟩ FfmpegLoc.ambient
      = Except.error (PyError.valueError "ffmpeg") :=
  ⟨(ffmpeg_probe_fatal ⟨fun _ => false, fun _ => false, fun _ => 1⟩
      "T" "c" "dl" "/opt/ffmpeg" rfl rfl).1 (by decide) rfl,
   (ffmpeg_probe_fatal ⟨fun _ => false, fun _ => false, fun _ => 1⟩
      "T" "c" "dl" "/opt/ffmpeg" rfl rfl).2 FfmpegLoc.ambient (by decide)⟩

/-- C6: a failing secondary-tool probe is non-fatal.  With a custom
ffmpeg path whose version query succeeds, `start` completes without
raising both when the co-located ffprobe candidate exists but its version
query exits non-zero and when no co-located ffprobe file exists; in both
cases the `_ffprobe` binding is left unset. -/
theorem ffprobe_nonfatal (w : World) (p : String)
    (hffmpeg : w.runExit (p ++ " -version") = 0) :
    (w.isFile (ffprobePath p) = true →
      w.runExit (ffprobePath p ++ " -version") ≠ 0 →
      start w (.custom p) = Except.ok none) ∧
    (w.isFile (ffprobePath p) = false →
      start w (.custom p) = Except.ok none) := by
  constructor
  · intro hfile hrun
    simp [start, check_ffmpeg, hffmpeg, hfile, hrun]
  · intro hfile
    simp [start, check_ffmpeg, hffmpeg, hfile]

/-- Witness for C6: ffmpeg at `/opt/ffmpeg` answers its version query
with exit 0; `/opt/ffprobe` exists but exits 1 — `start` still succeeds
with no ffprobe binding.  In a second world `/opt/ffprobe` does not
exist — same successful outcome. -/
theorem ffprobe_nonfatal_witness :
    start ⟨fun q => q = "/opt/ffmpeg" ∨ q = "/opt/ffprobe", fun _ => false,
        fun c => if c = "/opt/ffmpeg -version" then 0 else 1⟩
      (.custom "/opt/ffmpeg") = Except.ok none ∧
    start ⟨fun q => q = "/opt/ffmpeg", fun _ => false, fun _ => 0⟩
      (.custom "/opt/ffmpeg") = Except.ok none :=
  ⟨(ffprobe_nonfatal ⟨fun q => q = "/opt/ffmpeg" ∨ q = "/opt/ffprobe", fun _ => false,
        fun c => if c = "/opt/ffmpeg -version" then 0 else 1⟩
      "/opt/ffmpeg" (by decide)).1 (by decide) (by decide),
   (ffprobe_nonfatal ⟨fun q => q = "/opt/ffmpeg", fun _ => false, fun _ => 0⟩
      "/opt/ffmpeg" rfl).2 (by decide)⟩

/-- C7: `stop` is total on every lifecycle state (in particular on a
never-started instance), and a second `stop` in a row leaves the state
unchanged and performs only the idempotent cache close — no session
close, no exception. -/
theorem stop_idempotent (s : LifeState) :
    stop (stop s).1 = ((stop s).1, [StopAction.closeCache]) := by
  by_cases h : s.httpClosed <;> simp [stop, h]

/-- C8 counterexample: an instance whose session was supplied externally
(`httpExternal = true`) and is open still gets its session closed by
`stop`, refuting "stop() leaves an externally supplied session
unclosed". -/
theorem stop_closes_external_session :
    (stop ⟨false, true, true⟩).2 = [StopAction.closeHttp, StopAction.closeCache] ∧
    (stop ⟨false, true, true⟩).1.httpClosed = true := by
  constructor <;> rfl

/-- C8 amended: `stop` closes the network session exactly when it is
open, regardless of whether it was supplied externally at construction
(the ownership flag has no effect on `stop`), and closes the key-cache
storage in every case. -/
theorem stop_frame (s : LifeState) :
    (stop s).2 = (if s.httpClosed then [StopAction.closeCache]
      else [StopAction.closeHttp, StopAction.closeCache]) ∧
    (stop s).1.cacheOpen = false ∧
    stop { s with httpExternal := !s.httpExternal }
      = ({ (stop s).1 with httpExternal := !s.httpExternal }, (stop s).2) := by
  by_cases h : s.httpClosed <;> simp [stop, h]

/-- C9 (code slip): with `cache_path` an existing plain file, the
constructor raises — but with `FileExistsError` out of
`Path.mkdir(exist_ok=True, parents=True)` at line 62, not with the
`TypeError` of line 64; indeed no run of the constructor can ever raise
that `TypeError`, because reaching line 63 requires the `mkdir` to have
succeeded, which requires the path not to be a file. -/
theorem init_file_cache_path :
    iYTDL_init ⟨fun p => p = "cache.txt", fun _ => false, fun _ => 0⟩
        "T" "cache.txt" "downloads" "ffmpeg"
      = Except.error (PyError.fileExists "cache.txt") ∧
    ∀ (w : World) (dt cp dp fl : String),
      iYTDL_init w dt cp dp fl = Except.error (PyError.typeError cp) → False := by
  constructor
  · simp [iYTDL_init, path_mkdir]
  · intro w dt cp dp fl h
    by_cases hcp : w.isFile cp
    · simp [iYTDL_init, path_mkdir, hcp] at h
    · by_cases hdp : w.isFile dp
      · simp [iYTDL_init, path_mkdir, hcp, hdp] at h
      · by_cases hfl : fl = "ffmpeg"
        · simp [iYTDL_init, path_mkdir, hcp, hdp, hfl] at h
        · simp only [iYTDL_init, path_mkdir, hcp, hdp, hfl, Bool.false_eq_true,
            if_false, ite_false, ne_eq, not_false_eq_true, if_true, ite_true] at h
          split at h <;> simp_all

/-- Witness for C9's unreachability conjunct at a concrete run. -/
theorem init_file_cache_path_witness :
    iYTDL_init ⟨fun p => p = "cache.txt", fun _ => false, fun _ => 0⟩
        "T" "cache.txt" "downloads" "ffmpeg"
      = Except.error (PyError.fileExists "cache.txt") ∧
    (iYTDL_init ⟨fun p => p = "cache.txt", fun _ => false, fun _ => 0⟩
        "T" "cache.txt" "downloads" "ffmpeg"
      = Except.error (PyError.typeError "cache.txt") → False) :=
  ⟨init_file_cache_path.1,
   init_file_cache_path.2 ⟨fun p => p = "cache.txt", fun _ => false, fun _ => 0⟩
     "T" "cache.txt" "downloads" "ffmpeg"⟩

end IYTDL
